import Mathlib

/-
  Shallow embedding of `posixqueue` (src/posixqueue/__init__.py), a Python
  wrapper around the POSIX message-queue calls, together with theorems that
  settle the spec claims C1..C10.

  Modelling conventions:
  - Python `int` is `Int`; byte strings and queue names are `List Nat` /
    `List Char`; the wall clock is a nonnegative rational.
  - The kernel is an external collaborator: every mq_* call's outcome (its
    return value, the errno it sets, the message it delivers) is an explicit
    argument to the embedded function, and the call the wrapper issues is
    returned as data so theorems can inspect which variant ran.
  - Python exceptions are the `PyError` codomain of `Except`.
-/

namespace PosixQueue

/-- Exceptions the wrapper can raise: the `Timeout` subclass, the generic
`MessageQueueError(errno, name)`, and Python's `KeyError` from the unguarded
dictionary lookup `errorcode[errno]` in `raise_error`. -/
inductive PyError where
  | timeout
  | messageQueueError (errno : Nat) (name : String)
  | keyError (errno : Nat)
  deriving DecidableEq, Repr

/-- The `errno.errorcode` mapping of the Python standard library on Linux
(numeric errno to symbolic name), external to the repository; listed here are
the defined codes relevant to the message-queue calls.  Codes with no entry
(such as 0 or 200, which are not defined errnos on Linux) have no entry in
the real mapping either. -/
def errorcode : List (Nat × String) :=
  [(1, "EPERM"), (2, "ENOENT"), (4, "EINTR"), (9, "EBADF"), (11, "EAGAIN"),
   (12, "ENOMEM"), (13, "EACCES"), (17, "EEXIST"), (22, "EINVAL"),
   (23, "ENFILE"), (24, "EMFILE"), (28, "ENOSPC"), (36, "ENAMETOOLONG"),
   (90, "EMSGSIZE"), (110, "ETIMEDOUT")]

/-- Python dictionary lookup `errorcode[errno]`: `none` models the missing
key (a raised `KeyError`). -/
def lookupErrorcode (errno : Nat) : Option String :=
  (errorcode.find? (fun p => p.1 == errno)).map Prod.snd

/-- `MessageQueue.raise_error`: reads errno and raises.  The branch condition
`errorcode[errno] == "ETIMEDOUT"` performs the dictionary lookup unguarded,
so a missing key raises `KeyError` before any classification happens. -/
def raise_error (errno : Nat) : PyError :=
  match lookupErrorcode errno with
  | none => .keyError errno
  | some name =>
      if name = "ETIMEDOUT" then .timeout
      else .messageQueueError errno name

/-- The ctypes `MessageQueueAttributes` structure (mq_attr). -/
structure MessageQueueAttributes where
  mq_flags : Int
  mq_maxmsg : Int
  mq_msgsize : Int
  mq_curmsgs : Int
  deriving DecidableEq, Repr

/-- The ctypes `MessageQueueTimeSpec` structure (timespec). -/
structure MessageQueueTimeSpec where
  tv_sec : Int
  tv_nsec : Int
  deriving DecidableEq, Repr

/-- Python `int(·)` on a real number: truncation toward zero. -/
def pyInt (q : ℚ) : Int := if 0 ≤ q then ⌊q⌋ else ⌈q⌉

/-- `MessageQueue._setup_timeout`: builds a fresh timespec
`(int(time()) + seconds, 0)` from the clock reading `now` of this call. -/
def setup_timeout (now : ℚ) (seconds : Int) : MessageQueueTimeSpec :=
  ⟨pyInt now + seconds, 0⟩

/-- `os.O_RDONLY` on Linux. -/
def O_RDONLY : Nat := 0
/-- `os.O_WRONLY` on Linux. -/
def O_WRONLY : Nat := 1
/-- `os.O_RDWR` on Linux. -/
def O_RDWR : Nat := 2
/-- `os.O_CREAT` on Linux (octal 100). -/
def O_CREAT : Nat := 64

/-- Python `name.startswith("/")` on a name modelled as its character list. -/
def startsWithSlash (s : List Char) : Bool :=
  match s with
  | [] => false
  | c :: _ => c == '/'

/-- The name normalization in `MessageQueue.__init__`:
`if not name.startswith("/"): name = "/" + name`. -/
def normalizeName (name : List Char) : List Char :=
  if startsWithSlash name then name else '/' :: name

/-- Spec-side predicate (from the QueueName invariant's words): the name
begins with a single leading separator character, i.e. exactly one '/'. -/
def singleLeadingSlash (s : List Char) : Bool :=
  match s with
  | [] => false
  | [c] => c == '/'
  | c1 :: c2 :: _ => c1 == '/' && !(c2 == '/')

/-- The flag composition in `MessageQueue.__init__`: the if/elif chain over
`mode` (with no else branch) followed by the `O_CREAT` or. -/
def composeFlags (mode : String) (flags : Nat) (create : Bool) : Nat :=
  let f :=
    if mode = "w" then flags ||| O_WRONLY
    else if mode = "r" then flags ||| O_RDONLY
    else if mode = "rw" then flags ||| O_RDWR
    else flags
  if create then f ||| O_CREAT else f

/-- The system-wide limits read by `system_max_size` / `system_max_messages`
from /proc/sys/fs/mqueue (the external limits provider). -/
structure SysLimits where
  msgsize_max : Int
  msg_max : Int
  deriving DecidableEq, Repr

/-- The caller-supplied arguments of `MessageQueue.__init__` (Python defaults:
mode="rw", flags=0, create=False, permissions=0o644, max_messages=None,
max_size=None, persist=False). -/
structure InitArgs where
  name : List Char
  mode : String
  flags : Nat
  create : Bool
  permissions : Nat
  max_messages : Option Int
  max_size : Option Int
  persist : Bool
  deriving DecidableEq, Repr

/-- The constructed handle: the attributes `__init__` stores on `self`. -/
structure MessageQueue where
  name : List Char
  creator : Bool
  mode : String
  persist : Bool
  max_size : Int
  max_messages : Int
  reference : Int
  deriving DecidableEq, Repr

/-- The `mq_open` call `__init__` issues: with an attributes record (creator
branch) or without (non-creator branch). -/
inductive OpenCall where
  | withAttrs (name : List Char) (flags : Nat) (permissions : Nat)
      (attrs : MessageQueueAttributes)
  | withoutAttrs (name : List Char) (flags : Nat)
  deriving DecidableEq, Repr

/-- The flags argument of an issued `mq_open` call. -/
def OpenCall.callFlags : OpenCall → Nat
  | .withAttrs _ f _ _ => f
  | .withoutAttrs _ f => f

/-- `MessageQueue.__init__`.  `ret` and `errno` are the return value of the
`mq_open` call and the errno it set; the result pairs the constructed handle
with the call that was issued, or is the raised exception when `ret = -1`. -/
def mqInit (args : InitArgs) (limits : SysLimits) (ret : Int) (errno : Nat) :
    Except PyError (MessageQueue × OpenCall) :=
  let max_size := args.max_size.getD limits.msgsize_max
  let max_messages := args.max_messages.getD limits.msg_max
  let name := normalizeName args.name
  let flags := composeFlags args.mode args.flags args.create
  let call :=
    if args.create then
      OpenCall.withAttrs name flags args.permissions ⟨0, max_messages, max_size, 0⟩
    else
      OpenCall.withoutAttrs name flags
  if ret = -1 then .error (raise_error errno)
  else .ok (⟨name, args.create, args.mode, args.persist, max_size, max_messages, ret⟩, call)

/-- The `mq_send` / `mq_timedsend` call `send` issues. -/
inductive SendCall where
  | mq_send (ref : Int) (data : List Nat) (priority : Int)
  | mq_timedsend (ref : Int) (data : List Nat) (priority : Int)
      (deadline : MessageQueueTimeSpec)
  deriving DecidableEq, Repr

/-- `MessageQueue.send`: picks the blocking or timed variant by
`timeout is not None`, building the deadline from this call's clock reading
`now`; a `-1` return raises through `raise_error`. -/
def sendModel (q : MessageQueue) (data : List Nat) (priority : Option Int)
    (timeout : Option Int) (now : ℚ) (ret : Int) (errno : Nat) :
    Except PyError Unit × SendCall :=
  let p := priority.getD 0
  let call :=
    match timeout with
    | some s => SendCall.mq_timedsend q.reference data p (setup_timeout now s)
    | none => SendCall.mq_send q.reference data p
  (if ret = -1 then .error (raise_error errno) else .ok (), call)

/-- Outcome of one kernel receive: either it delivered a message (with the
priority the kernel tracks for it) and returned its byte count, or it
returned -1 setting `errno`. -/
inductive RecvOutcome where
  | ok (priority : Int) (msg : List Nat)
  | fail (errno : Nat)
  deriving DecidableEq, Repr

/-- `recv_buffer_size = self.max_size + 1` in `MessageQueue.recv`. -/
def recv_buffer_size (max_size : Int) : Int := max_size + 1

/-- The value `MessageQueue.recv` returns or raises, given the kernel
outcome: on success the kernel wrote the message into the fresh buffer of
size `recv_buffer_size` and returned its length `ret`, and the wrapper
returns `recv_buffer[:ret]`; on failure it raises through `raise_error`.
The delivered priority is never read (the priority out-parameter is None). -/
def recvResult (max_size : Int) (outcome : RecvOutcome) :
    Except PyError (List Nat) :=
  match outcome with
  | .fail errno => .error (raise_error errno)
  | .ok _ msg =>
      let buffer :=
        msg ++ List.replicate ((recv_buffer_size max_size).toNat - msg.length) 0
      .ok (buffer.take msg.length)

/-- The `mq_receive` / `mq_timedreceive` call `recv` issues. -/
inductive RecvCall where
  | mq_receive (ref : Int) (bufSize : Int)
  | mq_timedreceive (ref : Int) (bufSize : Int)
      (deadline : MessageQueueTimeSpec)
  deriving DecidableEq, Repr

/-- `MessageQueue.recv`: allocates the buffer, picks the blocking or timed
variant by `timeout is not None` (deadline from this call's clock reading
`now`), and pairs the result with the call that was issued. -/
def recvModel (q : MessageQueue) (timeout : Option Int) (now : ℚ)
    (outcome : RecvOutcome) : Except PyError (List Nat) × RecvCall :=
  let bufSize := recv_buffer_size q.max_size
  let call :=
    match timeout with
    | some s => RecvCall.mq_timedreceive q.reference bufSize (setup_timeout now s)
    | none => RecvCall.mq_receive q.reference bufSize
  (recvResult q.max_size outcome, call)

/-- `MessageQueue._read_attributes`: a failing `mq_getattr` raises through
`raise_error`, otherwise the attributes the kernel filled in are returned. -/
def read_attributes (ret : Int) (errno : Nat) (attrs : MessageQueueAttributes) :
    Except PyError MessageQueueAttributes :=
  if ret = -1 then .error (raise_error errno) else .ok attrs

/-- The calls `__del__` issues. -/
inductive DelCall where
  | mq_close (ref : Int)
  | mq_unlink (name : List Char)
  deriving DecidableEq, Repr

/-- `MessageQueue.__del__`: closes the descriptor, raising through
`raise_error` when `mq_close` returns -1; then, if `creator and not persist`,
calls `mq_unlink(self.name)` — whose return value the code does not examine.
`unlinkRet`/`unlinkErrno` are the outcome `mq_unlink` would report. -/
def mqDel (q : MessageQueue) (closeRet : Int) (closeErrno : Nat)
    (unlinkRet : Int) (unlinkErrno : Nat) :
    Except PyError Unit × List DelCall :=
  if closeRet = -1 then
    (.error (raise_error closeErrno), [.mq_close q.reference])
  else if q.creator && !q.persist then
    (.ok (), [.mq_close q.reference, .mq_unlink q.name])
  else
    (.ok (), [.mq_close q.reference])

/-- Result of running the `__iter__` generator against a finite trace of
kernel receive outcomes: `stopped msgs` is normal termination (a `Timeout`
was classified and turned into StopIteration after yielding `msgs`),
`failed msgs e` is the non-timeout exception `e` propagating out of the
sequence, `pending msgs` means the trace was exhausted with the loop still
running. -/
inductive IterResult where
  | stopped (msgs : List (List Nat))
  | failed (msgs : List (List Nat)) (e : PyError)
  | pending (msgs : List (List Nat))
  deriving DecidableEq, Repr

/-- `MessageQueue.__iter__`: `while True: try: yield self.recv(timeout=0)
except Timeout: raise StopIteration`, run against a trace of kernel
outcomes, one per `recv(timeout=0)` call. -/
def iterModel (max_size : Int) : List RecvOutcome → IterResult
  | [] => .pending []
  | o :: rest =>
      match recvResult max_size o with
      | .ok msg =>
          match iterModel max_size rest with
          | .stopped ms => .stopped (msg :: ms)
          | .failed ms e => .failed (msg :: ms) e
          | .pending ms => .pending (msg :: ms)
      | .error .timeout => .stopped []
      | .error e => .failed [] e

/-- The kernel's behaviour for successive zero-timeout receives on a queue
currently holding `msgs` (already in the kernel's priority dequeue order,
with the priorities it tracks): each call delivers the next message, and on
the empty queue a zero-timeout receive fails at once with ETIMEDOUT (110). -/
def kernelTraceOfQueue (msgs : List (Int × List Nat)) : List RecvOutcome :=
  msgs.map (fun pm => RecvOutcome.ok pm.1 pm.2) ++ [RecvOutcome.fail 110]

/-! ## Helper lemmas -/

/-- Taking the length of the left part of an append returns that part. -/
theorem take_length_append {α : Type} (l r : List α) : (l ++ r).take l.length = l := by
  induction l with
  | nil => simp
  | cons a t ih => simp [ih]

/-- ETIMEDOUT (110) classifies to the `Timeout` exception. -/
theorem raise_error_etimedout : raise_error 110 = PyError.timeout := by decide

/-- A successful kernel receive makes `recv` return exactly the delivered
message: the buffer truncated to the reported byte count. -/
theorem recvResult_ok (max_size : Int) (p : Int) (msg : List Nat) :
    recvResult max_size (.ok p msg) = .ok msg := by
  unfold recvResult
  simp [take_length_append]

/-- A failing kernel receive makes `recv` raise the classified error. -/
theorem recvResult_fail (max_size : Int) (errno : Nat) :
    recvResult max_size (.fail errno) = .error (raise_error errno) := rfl

/-! ## Claim theorems -/

/-- C1 (counterexample): at the concrete error code 0 — which has no entry in
the symbolic-name table — the classifier raises an unclassified `KeyError`,
not the `Timeout` signal and not a `MessageQueueError`, refuting the claim
that every non-ETIMEDOUT code yields a generic QueueError. -/
theorem c1_counterexample :
    raise_error 0 = PyError.keyError 0 ∧ raise_error 0 ≠ PyError.timeout := by
  decide

/-- C1 (amended): for every error code that has an entry in the symbolic-name
table, the classifier raises `Timeout` exactly when that name is "ETIMEDOUT"
and otherwise a `MessageQueueError` carrying the numeric code and its
symbolic name; and this same classification is applied to every failing
open, send, receive, and attribute read. -/
theorem c1_classifier_amended (errno : Nat) (name : String)
    (h : lookupErrorcode errno = some name) :
    (raise_error errno = PyError.timeout ↔ name = "ETIMEDOUT") ∧
    (name ≠ "ETIMEDOUT" → raise_error errno = PyError.messageQueueError errno name) ∧
    (∀ args limits, mqInit args limits (-1) errno = .error (raise_error errno)) ∧
    (∀ q data p t now ,
      (sendModel q data p t now (-1) errno).1 = .error (raise_error errno)) ∧
    (∀ q t now , (recvModel q t now (.fail errno)).1 = .error (raise_error errno)) ∧
    (∀ attrs, read_attributes (-1) errno attrs = .error (raise_error errno)) := by
  refine ⟨?_, ?_, ?_, ?_, ?_, ?_⟩
  · unfold raise_error
    rw [h]
    by_cases hn : name = "ETIMEDOUT" <;> simp [hn]
  · intro hn
    unfold raise_error
    rw [h]
    simp [hn]
  · intro args limits
    simp [mqInit]
  · intro q data p t now
    simp [sendModel]
  · intro q t now
    simp [recvModel, recvResult]
  · intro attrs
    simp [read_attributes]

/-- C1 witness: the amended classifier theorem applied at the concrete codes
110 (ETIMEDOUT) and 13 (EACCES). -/
theorem c1_classifier_amended_witness :
    raise_error 110 = PyError.timeout ∧
    raise_error 13 = PyError.messageQueueError 13 "EACCES" :=
  ⟨(c1_classifier_amended 110 "ETIMEDOUT" (by decide)).1.mpr rfl,
   (c1_classifier_amended 13 "EACCES" (by decide)).2.1 (by decide)⟩

/-- C2 (code bug): disposing a creator handle with persist = false whose
`mq_unlink` fails (returns -1 with errno 13, EACCES) still reports plain
success: the unlink return value is never examined, so the removal failure
is silently discarded instead of being classified and surfaced as a close
failure would be. -/
theorem c2_unlink_failure_discarded :
    mqDel ⟨['/', 'q'], true, "rw", false, 8192, 10, 3⟩ 0 0 (-1) 13 =
      (.ok (), [.mq_close 3, .mq_unlink ['/', 'q']]) ∧
    mqDel ⟨['/', 'q'], true, "rw", false, 8192, 10, 3⟩ (-1) 13 0 0 =
      (.error (PyError.messageQueueError 13 "EACCES"), [.mq_close 3]) :=
  ⟨rfl, rfl⟩

/-- C3: iterating a handle repeatedly receives with timeout 0; draining a
queue holding `msgs` yields exactly those messages and then terminates
normally when the classified `Timeout` arrives (the `Timeout` is not
propagated), while a receive failing with any non-timeout error makes the
sequence itself fail with that error. -/
theorem c3_iteration (max_size : Int) (msgs : List (Int × List Nat)) :
    iterModel max_size (kernelTraceOfQueue msgs) = .stopped (msgs.map Prod.snd) ∧
    (∀ errno rest, raise_error errno ≠ PyError.timeout →
      iterModel max_size (RecvOutcome.fail errno :: rest) =
        .failed [] (raise_error errno)) := by
  constructor
  · induction msgs with
    | nil =>
        simp [kernelTraceOfQueue, iterModel, recvResult_fail, raise_error_etimedout]
    | cons m rest ih =>
        have hstep : kernelTraceOfQueue (m :: rest) =
            RecvOutcome.ok m.1 m.2 :: kernelTraceOfQueue rest := rfl
        rw [hstep]
        simp only [iterModel, recvResult_ok, ih, List.map_cons]
  · intro errno rest h
    simp only [iterModel, recvResult_fail]

/-- C3 witness: a queue holding the two messages "x" and "y" (bytes 120 and
121) drains to exactly those two messages and stops normally, and a receive
failure with errno 13 (EACCES) fails the sequence. -/
theorem c3_iteration_witness :
    iterModel 8192 (kernelTraceOfQueue [(0, [120]), (0, [121])]) =
      IterResult.stopped [[120], [121]] ∧
    iterModel 8192 [RecvOutcome.fail 13] =
      IterResult.failed [] (PyError.messageQueueError 13 "EACCES") := by
  constructor
  · exact (c3_iteration 8192 [(0, [120]), (0, [121])]).1
  · have h := (c3_iteration 8192 []).2 13 [] (by decide)
    rw [show raise_error 13 = PyError.messageQueueError 13 "EACCES" from by decide] at h
    exact h

/-- Inversion of a successful construction: the handle a succeeding
`__init__` returns stores the normalized name, the creator flag, the mode,
the persist flag, the resolved limits, and the descriptor. -/
theorem mqInit_ok_inv (args : InitArgs) (limits : SysLimits) (ret : Int)
    (errno : Nat) (q : MessageQueue) (call : OpenCall)
    (h : mqInit args limits ret errno = .ok (q, call)) :
    q = ⟨normalizeName args.name, args.create, args.mode, args.persist,
         args.max_size.getD limits.msgsize_max,
         args.max_messages.getD limits.msg_max, ret⟩ := by
  by_cases hret : ret = -1
  · simp [mqInit, hret] at h
  · simp only [mqInit, if_neg hret, Except.ok.injEq, Prod.mk.injEq] at h
    exact h.1.symm

/-- C4 (counterexample): constructing from the caller-supplied name "//a"
(which already begins with two separators) succeeds and stores "//a"
unchanged, a name that does not begin with a single leading separator. -/
theorem c4_counterexample :
    mqInit ⟨['/', '/', 'a'], "rw", 0, false, 420, none, none, false⟩
        ⟨8192, 10⟩ 3 0 =
      .ok (⟨['/', '/', 'a'], false, "rw", false, 8192, 10, 3⟩,
           .withoutAttrs ['/', '/', 'a'] 2) ∧
    singleLeadingSlash ['/', '/', 'a'] = false :=
  ⟨rfl, by decide⟩

/-- C4 (amended): for every handle a successful construction returns, the
stored queue name begins with a leading '/' (at least one); a caller name
missing the leading '/' is normalized by prefixing exactly one, and a name
already starting with '/' — even with several — is stored unchanged. -/
theorem c4_leading_slash_amended (args : InitArgs) (limits : SysLimits)
    (ret : Int) (errno : Nat) (q : MessageQueue) (call : OpenCall)
    (h : mqInit args limits ret errno = .ok (q, call)) :
    startsWithSlash q.name = true ∧
    (startsWithSlash args.name = false → q.name = '/' :: args.name) ∧
    (startsWithSlash args.name = true → q.name = args.name) := by
  have hq := mqInit_ok_inv args limits ret errno q call h
  subst hq
  refine ⟨?_, ?_, ?_⟩
  · show startsWithSlash (normalizeName args.name) = true
    unfold normalizeName
    by_cases hs : startsWithSlash args.name
    · simp [hs]
    · rw [if_neg hs]
      rfl
  · intro hs
    show normalizeName args.name = '/' :: args.name
    simp [normalizeName, hs]
  · intro hs
    show normalizeName args.name = args.name
    simp [normalizeName, hs]

/-- C4 witness: the amended theorem applied to a construction from the name
"a", which stores "/a". -/
theorem c4_leading_slash_amended_witness : startsWithSlash ['/', 'a'] = true := by
  have h := c4_leading_slash_amended
      ⟨['a'], "rw", 0, false, 420, none, none, false⟩ ⟨8192, 10⟩ 3 0
      ⟨['/', 'a'], false, "rw", false, 8192, 10, 3⟩
      (.withoutAttrs ['/', 'a'] 2) rfl
  exact h.1

/-- C5 (counterexample): a non-creating construction with the caller-supplied
override max_size = 0 succeeds and stores 0 as the handle's maximum message
size — not a positive integer: the code never validates caller-supplied
limits. -/
theorem c5_counterexample :
    mqInit ⟨['q'], "rw", 0, false, 420, none, some 0, false⟩ ⟨8192, 10⟩ 3 0 =
      .ok (⟨['/', 'q'], false, "rw", false, 0, 10, 3⟩,
           .withoutAttrs ['/', 'q'] 2) ∧
    ¬ (0 < (0 : Int)) :=
  ⟨rfl, by decide⟩

/-- C5 (amended): when the caller supplies neither max_message_size nor
max_messages, each defaults to the corresponding system-wide limit read from
the limits provider; the resolved values then equal the kernel-allowed
limits (hence are positive and within bounds whenever the provider's limits
are).  Caller-supplied overrides are stored without any validation. -/
theorem c5_defaults_amended (args : InitArgs) (limits : SysLimits) (ret : Int)
    (errno : Nat) (q : MessageQueue) (call : OpenCall)
    (hms : args.max_size = none) (hmm : args.max_messages = none)
    (h : mqInit args limits ret errno = .ok (q, call)) :
    q.max_size = limits.msgsize_max ∧ q.max_messages = limits.msg_max ∧
    (0 < limits.msgsize_max → 0 < q.max_size) ∧
    (0 < limits.msg_max → 0 < q.max_messages) ∧
    q.max_size ≤ limits.msgsize_max ∧ q.max_messages ≤ limits.msg_max := by
  have hq := mqInit_ok_inv args limits ret errno q call h
  subst hq
  simp [hms, hmm]

/-- C5 witness: the amended theorem applied to a construction with no
caller-supplied limits against provider limits 8192 and 10. -/
theorem c5_defaults_amended_witness :
    MessageQueue.max_size ⟨['/', 'q'], false, "rw", false, 8192, 10, 3⟩ = 8192 := by
  have h := c5_defaults_amended ⟨['q'], "rw", 0, false, 420, none, none, false⟩
      ⟨8192, 10⟩ 3 0 ⟨['/', 'q'], false, "rw", false, 8192, 10, 3⟩
      (.withoutAttrs ['/', 'q'] 2) rfl rfl rfl
  exact h.1

/-- C6: the timeout codec turns a non-negative number of seconds into the
absolute deadline current-wall-clock-truncated-to-whole-seconds plus that
duration, with a zero nanosecond component; and every timed send and timed
receive builds its deadline fresh from its own clock reading. -/
theorem c6_setup_timeout (now : ℚ) (seconds : Int) (hnow : 0 ≤ now)
    (hsec : 0 ≤ seconds) :
    setup_timeout now seconds = ⟨⌊now⌋ + seconds, 0⟩ ∧
    (∀ q data p ret errno,
      (sendModel q data p (some seconds) now ret errno).2 =
        SendCall.mq_timedsend q.reference data (p.getD 0)
          (setup_timeout now seconds)) ∧
    (∀ q outcome,
      (recvModel q (some seconds) now outcome).2 =
        RecvCall.mq_timedreceive q.reference (recv_buffer_size q.max_size)
          (setup_timeout now seconds)) := by
  refine ⟨?_, fun q data p ret errno => rfl, fun q outcome => rfl⟩
  unfold setup_timeout pyInt
  rw [if_pos hnow]

/-- C6 witness: at clock reading 5/2 seconds and duration 3, the deadline is
5 whole seconds with zero nanoseconds. -/
theorem c6_setup_timeout_witness : setup_timeout (5 / 2 : ℚ) 3 = ⟨5, 0⟩ := by
  have h := (c6_setup_timeout (5 / 2 : ℚ) 3 (by norm_num) (by norm_num)).1
  rw [h]
  norm_num

/-- C7: with no timeout argument, send and receive issue the blocking
untimed call; with a timeout present — any value, including exactly zero —
they issue the timed variant with the deadline built from the relative
timeout, and an ETIMEDOUT (110) failure of the timed call surfaces as the
`Timeout` classification. -/
theorem c7_timeout_variant_dispatch (q : MessageQueue) (data : List Nat)
    (p : Option Int) (now : ℚ) (ret : Int) (errno : Nat)
    (outcome : RecvOutcome) :
    ((sendModel q data p none now ret errno).2 =
        SendCall.mq_send q.reference data (p.getD 0)) ∧
    (∀ s, (sendModel q data p (some s) now ret errno).2 =
        SendCall.mq_timedsend q.reference data (p.getD 0) (setup_timeout now s)) ∧
    ((recvModel q none now outcome).2 =
        RecvCall.mq_receive q.reference (recv_buffer_size q.max_size)) ∧
    (∀ s, (recvModel q (some s) now outcome).2 =
        RecvCall.mq_timedreceive q.reference (recv_buffer_size q.max_size)
          (setup_timeout now s)) ∧
    (∀ s, (sendModel q data p (some s) now (-1) 110).1 =
        .error PyError.timeout) ∧
    (∀ s, (recvModel q (some s) now (RecvOutcome.fail 110)).1 =
        .error PyError.timeout) := by
  refine ⟨rfl, fun s => rfl, rfl, fun s => rfl, fun s => ?_, fun s => ?_⟩
  · simp [sendModel, raise_error_etimedout]
  · simp [recvModel, recvResult_fail, raise_error_etimedout]

/-- C8: every receive allocates its buffer with size exactly
max_message_size + 1; on success it returns the buffer truncated to exactly
the byte count the kernel reported — that is, the delivered message itself —
and the delivered priority does not influence the returned value. -/
theorem c8_recv_buffer_truncation (q : MessageQueue) (timeout : Option Int)
    (now : ℚ) (p1 p2 : Int) (msg : List Nat) :
    recv_buffer_size q.max_size = q.max_size + 1 ∧
    (recvModel q timeout now (.ok p1 msg)).1 =
      .ok ((msg ++ List.replicate ((q.max_size + 1).toNat - msg.length) 0).take
            msg.length) ∧
    (recvModel q timeout now (.ok p1 msg)).1 = .ok msg ∧
    (recvModel q timeout now (.ok p1 msg)).1 =
      (recvModel q timeout now (.ok p2 msg)).1 := by
  refine ⟨rfl, rfl, ?_, ?_⟩
  · show recvResult q.max_size (.ok p1 msg) = .ok msg
    exact recvResult_ok q.max_size p1 msg
  · show recvResult q.max_size (.ok p1 msg) = recvResult q.max_size (.ok p2 msg)
    rw [recvResult_ok, recvResult_ok]

/-- C9: for every error code with no entry in the symbolic-name table, the
classifier produces neither the `Timeout` signal nor a `MessageQueueError`:
the unguarded table lookup itself raises `KeyError`, and a failing send or
receive with such an errno surfaces that unclassified lookup error. -/
theorem c9_unlisted_errno_keyerror (errno : Nat)
    (h : lookupErrorcode errno = none) :
    raise_error errno = PyError.keyError errno ∧
    raise_error errno ≠ PyError.timeout ∧
    (∀ q data p t now ,
      (sendModel q data p t now (-1) errno).1 =
        .error (PyError.keyError errno)) ∧
    (∀ q t now , (recvModel q t now (.fail errno)).1 =
        .error (PyError.keyError errno)) := by
  have hr : raise_error errno = PyError.keyError errno := by
    unfold raise_error
    rw [h]
  refine ⟨hr, by simp [hr], ?_, ?_⟩
  · intro q data p t now
    simp [sendModel, hr]
  · intro q t now
    simp [recvModel, recvResult_fail, hr]

/-- C9 witness: the concrete code 200, which is not a defined errno, makes
the classifier raise `KeyError` rather than a classified error. -/
theorem c9_unlisted_errno_keyerror_witness :
    raise_error 200 = PyError.keyError 200 :=
  (c9_unlisted_errno_keyerror 200 (by decide)).1

/-- C10: for every mode string outside r/w/rw, construction does not reject
the mode: the if/elif chain composes no access flag at all, the open call is
issued with only the caller-supplied extra flags (plus the creation flag
when create is set), and a succeeding open still yields a handle. -/
theorem c10_invalid_mode_not_rejected (args : InitArgs) (limits : SysLimits)
    (ret : Int) (errno : Nat)
    (h1 : args.mode ≠ "r") (h2 : args.mode ≠ "w") (h3 : args.mode ≠ "rw")
    (hret : ret ≠ -1) :
    composeFlags args.mode args.flags args.create =
      (if args.create then args.flags ||| O_CREAT else args.flags) ∧
    (∃ q call, mqInit args limits ret errno = .ok (q, call) ∧
      call.callFlags = composeFlags args.mode args.flags args.create) := by
  have hc : composeFlags args.mode args.flags args.create =
      (if args.create then args.flags ||| O_CREAT else args.flags) := by
    unfold composeFlags
    rw [if_neg h2, if_neg h1, if_neg h3]
  refine ⟨hc, ⟨normalizeName args.name, args.create, args.mode, args.persist,
      args.max_size.getD limits.msgsize_max,
      args.max_messages.getD limits.msg_max, ret⟩,
    if args.create then
      OpenCall.withAttrs (normalizeName args.name)
        (composeFlags args.mode args.flags args.create) args.permissions
        ⟨0, args.max_messages.getD limits.msg_max,
           args.max_size.getD limits.msgsize_max, 0⟩
    else
      OpenCall.withoutAttrs (normalizeName args.name)
        (composeFlags args.mode args.flags args.create), ?_, ?_⟩
  · simp [mqInit, hret]
  · by_cases hcr : args.create <;> simp [hcr, OpenCall.callFlags]

/-- C10 witness: the theorem applied to the invalid mode "x" with extra
flags 5 and create = false: the composed flags are exactly 5. -/
theorem c10_invalid_mode_not_rejected_witness : composeFlags "x" 5 false = 5 := by
  have h := c10_invalid_mode_not_rejected
      ⟨['q'], "x", 5, false, 420, none, none, false⟩ ⟨8192, 10⟩ 3 0
      (by decide) (by decide) (by decide) (by decide)
  simpa using h.1

end PosixQueue
